import Mathlib

/-!
# Checklist-DB-Service — verification of the storage-and-cache coordination layer

Shallow embedding of the repository's core: the domain error taxonomy
(`internal/repository/errors.go`, `internal/errors/errors.go`), the primary
store adapter's `DeleteByID` (`internal/repository/task.go`), the sharded
Redis cache client (`internal/cache/redis.go`) and the cache-aside repository
decorator (`internal/repository/cached_task.go`).

Go error values are modelled as an inductive type carrying exactly the
shapes the program constructs: `errors.New` sentinels, `pgconn.PgError`
driver errors, the repository's wrapping `RepositoryError`, and the
`pgx.ErrNoRows` sentinel.  `errors.Is` / `errors.As` walk the `Unwrap`
chain, which in this program only `RepositoryError` provides.
-/

namespace ChecklistDB

/-- A Go `error` value as this program builds them. -/
inductive GoErr where
  /-- an `errors.New(msg)` sentinel or a `fmt.Errorf` with no wrapped cause -/
  | simple (msg : String)
  /-- a `*pgconn.PgError` with its SQLSTATE code and message -/
  | pgError (code : String) (msg : String)
  /-- `repository.RepositoryError{Op, Err}` -/
  | repositoryError (op : String) (err : GoErr)
  /-- the `pgx.ErrNoRows` sentinel -/
  | pgxNoRows
  deriving DecidableEq, Repr

/-- `err.Error()`.  `RepositoryError.Error()` formats `"op: err"` unless the
operation name is empty; `pgx.ErrNoRows.Error()` is the fixed driver string. -/
def errMessage : GoErr → String
  | .simple m => m
  | .pgError code m => "ERROR: " ++ m ++ " (SQLSTATE " ++ code ++ ")"
  | .repositoryError op e =>
      if op = "" then errMessage e else op ++ ": " ++ errMessage e
  | .pgxNoRows => "no rows in result set"

/-- `errors.Is(err, target)`: equality along the `Unwrap` chain; only
`RepositoryError` unwraps. -/
def goErrIs : GoErr → GoErr → Bool
  | .repositoryError op inner, target =>
      GoErr.repositoryError op inner == target || goErrIs inner target
  | e, target => e == target

/-- `errors.As(err, &pgErr)` for `*pgconn.PgError`: the first driver error
along the `Unwrap` chain, as its (code, message) pair. -/
def goErrAsPgError : GoErr → Option (String × String)
  | .pgError c m => some (c, m)
  | .repositoryError _ inner => goErrAsPgError inner
  | _ => none

namespace repository

/-- `repository.ErrTaskNotFound` -/
def ErrTaskNotFound : GoErr := .simple "task not found"

/-- `repository.ErrTaskAlreadyExists` -/
def ErrTaskAlreadyExists : GoErr := .simple "task already exists"

/-- `repository.ErrDatabaseConnection` -/
def ErrDatabaseConnection : GoErr := .simple "database connection error"

/-- `repository.ErrInvalidData` -/
def ErrInvalidData : GoErr := .simple "invalid data provided"

/-- `repository.ErrConstraintViolation` -/
def ErrConstraintViolation : GoErr := .simple "database constraint violation"

/-- `repository.WrapError(op, err)` -/
def WrapError (op : String) : Option GoErr → Option GoErr
  | none => none
  | some e => some (.repositoryError op e)

/-- `repository.HandlePgxError(op, err)`.

In the Go source the switch arms for SQLSTATE `"23503"` and `"23502"` have
empty bodies (Go `switch` does not fall through), so those two codes match,
do nothing, leave the switch, and reach the trailing
`return WrapError(op, err)` that wraps the raw driver error; only `"23514"`
reaches the `ErrConstraintViolation` arm. -/
def HandlePgxError (op : String) : Option GoErr → Option GoErr
  | none => none
  | some err =>
    if goErrIs err .pgxNoRows then WrapError op (some ErrTaskNotFound)
    else
      match goErrAsPgError err with
      | some (code, msg) =>
        if code = "23505" then WrapError op (some ErrTaskAlreadyExists)
        else if code = "23503" then WrapError op (some err)
        else if code = "23502" then WrapError op (some err)
        else if code = "23514" then WrapError op (some ErrConstraintViolation)
        else if code = "08000" ∨ code = "08003" ∨ code = "08006" then
          WrapError op (some ErrDatabaseConnection)
        else if code = "22P02" then WrapError op (some ErrInvalidData)
        else WrapError op (some (.simple ("database error [" ++ code ++ "]: " ++ msg)))
      | none => WrapError op (some err)

/-- `repository.IsNotFoundError(err)`: unwraps one `RepositoryError` layer
(via `errors.As`) and compares against the `ErrTaskNotFound` sentinel. -/
def IsNotFoundError (err : GoErr) : Bool :=
  match err with
  | .repositoryError _ inner => goErrIs inner ErrTaskNotFound
  | e => goErrIs e ErrTaskNotFound

end repository

namespace svcerrors

/-- gRPC status codes used by `internal/errors/errors.go`. -/
inductive Code where
  | invalidArgument
  | notFound
  | alreadyExists
  | internal
  deriving DecidableEq, Repr

/-- `errors.ServiceError` (the wall-clock `Time` field is omitted: it does
not participate in any classification). -/
structure ServiceError where
  code : Code
  msg : String
  deriving DecidableEq, Repr

/-- `errors.ErrTaskNotFound` -/
def ErrTaskNotFoundSvc : ServiceError := ⟨.notFound, "task not found"⟩

/-- `errors.ErrTaskAlreadyExists` -/
def ErrTaskAlreadyExistsSvc : ServiceError := ⟨.alreadyExists, "task already exists"⟩

/-- `errors.IsNotFoundError(err)`: compares the rendered message against the
raw pgx driver string. -/
def IsNotFoundError (err : GoErr) : Bool :=
  errMessage err = "no rows in result set"

/-- `errors.IsConstraintViolationError(err)`: the source returns a literal
`false`. -/
def IsConstraintViolationError (_err : GoErr) : Bool :=
  false

/-- `errors.WrapRepositoryError(err)` for a non-nil `err`. -/
def WrapRepositoryError (err : GoErr) : ServiceError :=
  if IsNotFoundError err then ErrTaskNotFoundSvc
  else if IsConstraintViolationError err then ErrTaskAlreadyExistsSvc
  else ⟨.internal, "repository error: " ++ errMessage err⟩

end svcerrors

/-- `model.Task`.  The identity is an opaque UUID, modelled as a natural
number; timestamps are nanosecond counts. -/
structure Task where
  id : Nat
  title : String
  description : String
  completed : Bool
  createdAt : Int
  updatedAt : Int
  deriving DecidableEq, Repr

namespace repository

/-- Effect of `DELETE FROM tasks WHERE id = $1` on a table state: the
remaining rows and the command tag's `RowsAffected()`. -/
def execDeleteWhereId (db : List Task) (id : Nat) : List Task × Nat :=
  (db.filter (fun t => t.id ≠ id), (db.filter (fun t => t.id = id)).length)

/-- `taskRepository.DeleteByID` over a deterministic table state (no driver
failure): returns the new table state and the error result.  Zero rows
affected yields `WrapError("delete_task", ErrTaskNotFound)`. -/
def DeleteByID (db : List Task) (id : Nat) : List Task × Option GoErr :=
  let res := execDeleteWhereId db id
  if res.2 = 0 then (db, WrapError "delete_task" (some ErrTaskNotFound))
  else (res.1, none)

end repository

namespace cache

/-- The bit-reversed CRC-32 (IEEE) polynomial, `crc32.IEEE`'s table basis. -/
def crc32Poly : Nat := 0xEDB88320

/-- One bit step of the reflected CRC-32: shift right, conditionally xor the
polynomial.  All values stay below `2^32`. -/
def crc32Bit (crc : Nat) : Nat :=
  if crc % 2 = 1 then (crc / 2) ^^^ crc32Poly else crc / 2

/-- One byte step: xor the byte into the low bits, then eight bit steps. -/
def crc32Byte (crc b : Nat) : Nat :=
  crc32Bit^[8] (crc ^^^ (b % 256))

/-- `crc32.ChecksumIEEE(data)` as a value below `2^32` (the trailing mod is
the `uint32` truncation, already implied by the step functions). -/
def ChecksumIEEE (data : List Nat) : Nat :=
  ((data.foldl crc32Byte 0xFFFFFFFF) ^^^ 0xFFFFFFFF) % 2 ^ 32

/-- UTF-8 encoding of one Unicode code point. -/
def utf8Bytes (c : Nat) : List Nat :=
  if c < 0x80 then [c]
  else if c < 0x800 then
    [0xC0 ||| (c >>> 6), 0x80 ||| (c &&& 0x3F)]
  else if c < 0x10000 then
    [0xE0 ||| (c >>> 12), 0x80 ||| ((c >>> 6) &&& 0x3F), 0x80 ||| (c &&& 0x3F)]
  else
    [0xF0 ||| (c >>> 18), 0x80 ||| ((c >>> 12) &&& 0x3F),
     0x80 ||| ((c >>> 6) &&& 0x3F), 0x80 ||| (c &&& 0x3F)]

/-- The UTF-8 bytes of a Go string, as `[]byte(key)` views them. -/
def stringBytes (s : String) : List Nat :=
  (s.data.map (fun ch => utf8Bytes ch.toNat)).flatten

/-- Go's conversion `int(hash)` of a `uint32` on a 64-bit platform: the
value is preserved (every `uint32` fits in `int64`), hence non-negative. -/
def goIntOfUint32 (h : Nat) : Int :=
  Int.ofNat (h % 2 ^ 32)

/-- Go's `%` on machine integers: truncated division remainder — the result
carries the dividend's sign and the magnitude `|a| mod |b|`. -/
def goIntMod (a b : Int) : Int :=
  Int.sign a * Int.ofNat (a.natAbs % b.natAbs)

/-- A value stored in one Redis shard: the decoded form of the JSON document
the program writes (a single task snapshot or a task-list snapshot). -/
inductive CacheValue where
  | taskVal (t : Task)
  | listVal (ts : List Task)
  deriving DecidableEq, Repr

/-- One connected shard client (`redis.Cmdable`), abstracted by the results
its backend yields: `get` returns `.ok none` for `redis.Nil` (key absent),
`.ok (some v)` for a stored document, `.error e` for a backend failure. -/
structure ShardBackend where
  get : String → Except GoErr (Option CacheValue)
  set : String → CacheValue → Int → Option GoErr
  del : String → Option GoErr

/-- `redisCache`: the connected shard clients and the enabled flag. -/
structure RedisCacheImpl where
  clients : List ShardBackend
  enabled : Bool

/-- `cache.NewRedisCache(urls, password, db, enabled)`.  `connect` models
`redis.NewClient` + `Ping` for one URL: the constructor connects the URLs in
order and aborts on the first ping failure.  A disabled construction touches
no URL. -/
def NewRedisCache (connect : String → Except GoErr ShardBackend)
    (urls : List String) (enabled : Bool) : Except GoErr RedisCacheImpl :=
  if enabled = false then .ok ⟨[], false⟩
  else if urls.length = 0 then
    .error (.simple "redis URLs cannot be empty when Redis is enabled")
  else
    match urls.mapM connect with
    | .error e => .error e
    | .ok clients => .ok ⟨clients, true⟩

/-- `redisCache.getShardIndex(key)`: shard 0 for a single client, else the
CRC-32 of the key, converted to `int`, modulo the client count. -/
def getShardIndex (r : RedisCacheImpl) (key : String) : Int :=
  if r.clients.length = 1 then 0
  else goIntMod (goIntOfUint32 (ChecksumIEEE (stringBytes key)))
         (Int.ofNat r.clients.length)

/-- `redisCache.getClient(key)`: `none` models the `nil` client returned
when disabled or no clients are configured; the list indexing
`r.clients[index]` is rendered as `get?` (in-bounds by
`C10_shard_index_always_in_bounds`, where Go would panic out of bounds). -/
def getClient (r : RedisCacheImpl) (key : String) : Option ShardBackend :=
  if r.enabled = false ∨ r.clients.length = 0 then none
  else r.clients.get? (getShardIndex r key).toNat

/-- `redisCache.taskKey(id)`: `"task:" + id.String()`; the opaque UUID
renders as its decimal form here. -/
def taskKey (id : Nat) : String := "task:" ++ toString id

/-- `redisCache.taskListKey()` -/
def taskListKey : String := "tasks:list"

/-- `redisCache.SetTask(task, ttl)`.  JSON marshalling of a task cannot fail
and is modelled as the identity into `CacheValue.taskVal`. -/
def SetTask (r : RedisCacheImpl) (task : Task) (ttl : Int) : Option GoErr :=
  if r.enabled = false then none
  else
    let key := taskKey task.id
    match getClient r key with
    | none => some (.simple "no Redis client available")
    | some client => client.set key (.taskVal task) ttl

/-- `redisCache.GetTask(id)`: disabled reads fail with `"cache disabled"`;
`redis.Nil` becomes `"task not found in cache"`; a stored document of the
wrong shape is an unmarshal failure. -/
def GetTask (r : RedisCacheImpl) (id : Nat) : Except GoErr Task :=
  if r.enabled = false then .error (.simple "cache disabled")
  else
    let key := taskKey id
    match getClient r key with
    | none => .error (.simple "no Redis client available")
    | some client =>
      match client.get key with
      | .error e => .error e
      | .ok none => .error (.simple "task not found in cache")
      | .ok (some (.taskVal t)) => .ok t
      | .ok (some (.listVal _)) => .error (.simple "json unmarshal failure")

/-- `redisCache.DeleteTask(id)` -/
def DeleteTask (r : RedisCacheImpl) (id : Nat) : Option GoErr :=
  if r.enabled = false then none
  else
    let key := taskKey id
    match getClient r key with
    | none => some (.simple "no Redis client available")
    | some client => client.del key

/-- `redisCache.SetTaskList(tasks, ttl)` -/
def SetTaskList (r : RedisCacheImpl) (tasks : List Task) (ttl : Int) : Option GoErr :=
  if r.enabled = false then none
  else
    match getClient r taskListKey with
    | none => some (.simple "no Redis client available")
    | some client => client.set taskListKey (.listVal tasks) ttl

/-- `redisCache.GetTaskList()` -/
def GetTaskList (r : RedisCacheImpl) : Except GoErr (List Task) :=
  if r.enabled = false then .error (.simple "cache disabled")
  else
    match getClient r taskListKey with
    | none => .error (.simple "no Redis client available")
    | some client =>
      match client.get taskListKey with
      | .error e => .error e
      | .ok none => .error (.simple "task list not found in cache")
      | .ok (some (.listVal ts)) => .ok ts
      | .ok (some (.taskVal _)) => .error (.simple "json unmarshal failure")

/-- `redisCache.InvalidateTaskList()` -/
def InvalidateTaskList (r : RedisCacheImpl) : Option GoErr :=
  if r.enabled = false then none
  else
    match getClient r taskListKey with
    | none => some (.simple "no Redis client available")
    | some client => client.del taskListKey

end cache

namespace repository

/-- The `TaskRepository` interface, as the results a primary-store
implementation yields for each call (the decorator treats it as opaque). -/
structure TaskRepository where
  create : Task → Except GoErr Task
  getByID : Nat → Except GoErr Task
  update : Task → Except GoErr Task
  deleteByID : Nat → Option GoErr
  list : Except GoErr (List Task)

/-- The cache client as the decorator sees it: the result of each call it
can make.  `cacheOpsOf` instantiates this with the Redis client model. -/
structure CacheOps where
  setTask : Task → Int → Option GoErr
  getTask : Nat → Except GoErr Task
  deleteTask : Nat → Option GoErr
  setTaskList : List Task → Int → Option GoErr
  getTaskList : Except GoErr (List Task)
  invalidateTaskList : Option GoErr

/-- The Redis cache client model packaged behind the decorator-facing
interface. -/
def cacheOpsOf (r : cache.RedisCacheImpl) : CacheOps where
  setTask := cache.SetTask r
  getTask := cache.GetTask r
  deleteTask := cache.DeleteTask r
  setTaskList := cache.SetTaskList r
  getTaskList := cache.GetTaskList r
  invalidateTaskList := cache.InvalidateTaskList r

/-- `cachedTaskRepository{repo, cache, ttl}` -/
structure cachedTaskRepository where
  repo : TaskRepository
  cache : CacheOps
  ttl : Int

/-- One nanosecond count for `time.Second`. -/
def goSecond : Int := 1000000000

/-- The hardcoded `listTTL := 60 * time.Second` inside
`cachedTaskRepository.List`. -/
def listTTL : Int := 60 * goSecond

/-- `cachedTaskRepository.Create`: primary store first; on success the cache
write and list invalidation results are bound and only logged (`_cacheSet`,
`_invalidate`), never returned. -/
def cachedCreate (r : cachedTaskRepository) (task : Task) : Except GoErr Task :=
  match r.repo.create task with
  | .error e => .error e
  | .ok createdTask =>
    let _cacheSet := r.cache.setTask createdTask r.ttl
    let _invalidate := r.cache.invalidateTaskList
    .ok createdTask

/-- `cachedTaskRepository.GetByID`.  The second component records whether
the primary store was consulted (`false` exactly on a cache hit). -/
def cachedGetByID (r : cachedTaskRepository) (id : Nat) :
    Except GoErr Task × Bool :=
  match r.cache.getTask id with
  | .ok task => (.ok task, false)
  | .error _ =>
    match r.repo.getByID id with
    | .error e => (.error e, true)
    | .ok task =>
      let _cacheSet := r.cache.setTask task r.ttl
      (.ok task, true)

/-- `cachedTaskRepository.Update`: primary store first; cache results only
logged. -/
def cachedUpdate (r : cachedTaskRepository) (task : Task) : Except GoErr Task :=
  match r.repo.update task with
  | .error e => .error e
  | .ok updatedTask =>
    let _cacheSet := r.cache.setTask updatedTask r.ttl
    let _invalidate := r.cache.invalidateTaskList
    .ok updatedTask

/-- `cachedTaskRepository.DeleteByID`: primary store first; cache delete and
list invalidation results only logged. -/
def cachedDeleteByID (r : cachedTaskRepository) (id : Nat) : Option GoErr :=
  match r.repo.deleteByID id with
  | some e => some e
  | none =>
    let _cacheDel := r.cache.deleteTask id
    let _invalidate := r.cache.invalidateTaskList
    none

/-- `cachedTaskRepository.List`.  The second component records the TTL
passed to `SetTaskList` when the list cache is populated (`none` when no
population was attempted). -/
def cachedList (r : cachedTaskRepository) :
    Except GoErr (List Task) × Option Int :=
  match r.cache.getTaskList with
  | .ok tasks => (.ok tasks, none)
  | .error _ =>
    match r.repo.list with
    | .error e => (.error e, none)
    | .ok tasks =>
      let _cacheSet := r.cache.setTaskList tasks listTTL
      (.ok tasks, some listTTL)

end repository

/-- A shard backend whose reads all report `redis.Nil` and whose writes all
succeed: the simplest connected shard. -/
def nullShard : cache.ShardBackend where
  get := fun _ => .ok none
  set := fun _ _ _ => none
  del := fun _ => none

/-- A sample task used to instantiate universally quantified statements. -/
def sampleTask : Task := ⟨1, "Buy milk", "", false, 0, 0⟩

/-- A shard backend holding `sampleTask` under every key. -/
def hitShard : cache.ShardBackend where
  get := fun _ => .ok (some (.taskVal sampleTask))
  set := fun _ _ _ => none
  del := fun _ => none

/-- A primary store stub whose operations all succeed. -/
def stubRepo : repository.TaskRepository where
  create := fun t => .ok t
  getByID := fun _ => .ok sampleTask
  update := fun t => .ok t
  deleteByID := fun _ => none
  list := .ok [sampleTask]

/-! ## Theorems -/

/-- The result of a `DeleteByID` is a success exactly when a row with the
requested id is present. -/
theorem deleteByID_snd_eq_none_iff (db : List Task) (id : Nat) :
    (repository.DeleteByID db id).2 = none ↔ ∃ t ∈ db, t.id = id := by
  have hiff : (db.filter (fun t => decide (t.id = id))).length = 0
      ↔ ¬ ∃ t ∈ db, t.id = id := by
    rw [List.length_eq_zero, List.filter_eq_nil_iff]
    simp
  simp only [repository.DeleteByID, repository.execDeleteWhereId,
    repository.WrapError]
  by_cases h : (db.filter (fun t => decide (t.id = id))).length = 0
  · rw [if_pos h]
    exact iff_of_false (by simp) (hiff.mp h)
  · rw [if_neg h]
    have hex : ∃ t ∈ db, t.id = id := by
      by_contra hne
      exact h (hiff.mpr hne)
    exact ⟨fun _ => hex, fun _ => rfl⟩

/-- C1: the claim says a repository `ErrTaskNotFound` (wrapped into a
`RepositoryError` by `WrapError`) is translated by
`errors.WrapRepositoryError` into the `NotFound` service error, and
`ErrTaskAlreadyExists` into `AlreadyExists`.  The code disagrees: the
message comparison in `errors.IsNotFoundError` targets the raw pgx string,
which a wrapped repository error never renders, and
`errors.IsConstraintViolationError` is constantly false — both taxonomy
errors land in the `Internal` catch-all. -/
theorem C1_wrapRepositoryError_sends_taxonomy_errors_to_internal :
    repository.HandlePgxError "get_task_by_id" (some .pgxNoRows)
      = some (.repositoryError "get_task_by_id" repository.ErrTaskNotFound)
    ∧ (svcerrors.WrapRepositoryError
        (.repositoryError "get_task_by_id" repository.ErrTaskNotFound)).code
      = svcerrors.Code.internal
    ∧ svcerrors.WrapRepositoryError
        (.repositoryError "get_task_by_id" repository.ErrTaskNotFound)
      ≠ svcerrors.ErrTaskNotFoundSvc
    ∧ (svcerrors.WrapRepositoryError
        (.repositoryError "create_task" repository.ErrTaskAlreadyExists)).code
      = svcerrors.Code.internal
    ∧ svcerrors.WrapRepositoryError
        (.repositoryError "create_task" repository.ErrTaskAlreadyExists)
      ≠ svcerrors.ErrTaskAlreadyExistsSvc := by
  decide

/-- C4: `HandlePgxError`'s actual mapping.  `pgx.ErrNoRows`, `23505`,
`23514`, the three connection codes and `22P02` map as the claim says, but
`23502` and `23503` do **not** map to `ErrConstraintViolation`: their Go
switch arms have empty bodies, so both codes fall out of the switch and the
raw driver error is wrapped uncategorized. -/
theorem C4_handlePgxError_mapping_evaluated :
    repository.HandlePgxError "op" (some .pgxNoRows)
      = some (.repositoryError "op" repository.ErrTaskNotFound)
    ∧ repository.HandlePgxError "op" (some (.pgError "23505" "dup"))
      = some (.repositoryError "op" repository.ErrTaskAlreadyExists)
    ∧ repository.HandlePgxError "op" (some (.pgError "23514" "check"))
      = some (.repositoryError "op" repository.ErrConstraintViolation)
    ∧ repository.HandlePgxError "op" (some (.pgError "23502" "not null"))
      = some (.repositoryError "op" (.pgError "23502" "not null"))
    ∧ repository.HandlePgxError "op" (some (.pgError "23502" "not null"))
      ≠ some (.repositoryError "op" repository.ErrConstraintViolation)
    ∧ repository.HandlePgxError "op" (some (.pgError "23503" "fk"))
      = some (.repositoryError "op" (.pgError "23503" "fk"))
    ∧ repository.HandlePgxError "op" (some (.pgError "23503" "fk"))
      ≠ some (.repositoryError "op" repository.ErrConstraintViolation)
    ∧ repository.HandlePgxError "op" (some (.pgError "08000" "conn"))
      = some (.repositoryError "op" repository.ErrDatabaseConnection)
    ∧ repository.HandlePgxError "op" (some (.pgError "08003" "conn"))
      = some (.repositoryError "op" repository.ErrDatabaseConnection)
    ∧ repository.HandlePgxError "op" (some (.pgError "08006" "conn"))
      = some (.repositoryError "op" repository.ErrDatabaseConnection)
    ∧ repository.HandlePgxError "op" (some (.pgError "22P02" "uuid"))
      = some (.repositoryError "op" repository.ErrInvalidData)
    ∧ repository.HandlePgxError "op" (some (.pgError "99999" "other"))
      = some (.repositoryError "op" (.simple "database error [99999]: other"))
    ∧ repository.HandlePgxError "op" (some (.simple "plain failure"))
      = some (.repositoryError "op" (.simple "plain failure")) := by
  decide

/-- C5: the primary store adapter's `DeleteByID` succeeds exactly when a row
with the requested id is present, fails with the wrapped `ErrTaskNotFound`
taxonomy error on zero affected rows, and hence a second delete of the same
id (with no interleaving writes) yields `NotFound` after a first success. -/
theorem C5_deleteByID_not_idempotent (db : List Task) (id : Nat) :
    ((repository.DeleteByID db id).2 = none ↔ ∃ t ∈ db, t.id = id)
    ∧ (∀ t ∈ db, t.id = id →
        (repository.DeleteByID db id).2 = none
        ∧ (repository.DeleteByID (repository.DeleteByID db id).1 id).2
            = some (.repositoryError "delete_task" repository.ErrTaskNotFound)
        ∧ repository.IsNotFoundError
            (.repositoryError "delete_task" repository.ErrTaskNotFound) = true) := by
  refine ⟨deleteByID_snd_eq_none_iff db id, ?_⟩
  intro t ht hid
  have hfirst : (repository.DeleteByID db id).2 = none :=
    (deleteByID_snd_eq_none_iff db id).mpr ⟨t, ht, hid⟩
  have hlen : ¬ (db.filter (fun x => decide (x.id = id))).length = 0 := by
    intro h0
    rw [List.length_eq_zero, List.filter_eq_nil_iff] at h0
    exact h0 t ht (by simpa using hid)
  have hfst : (repository.DeleteByID db id).1
      = db.filter (fun x => decide (x.id ≠ id)) := by
    simp only [repository.DeleteByID, repository.execDeleteWhereId,
      repository.WrapError, if_neg hlen]
  have hnil : (db.filter (fun x => decide (x.id ≠ id))).filter
      (fun x => decide (x.id = id)) = [] := by
    rw [List.filter_eq_nil_iff]
    intro a ha
    have h2 := (List.mem_filter.mp ha).2
    simpa using h2
  refine ⟨hfirst, ?_, by decide⟩
  rw [hfst]
  simp [repository.DeleteByID, repository.execDeleteWhereId,
    repository.WrapError, hnil]

/-- Witness for `C5_deleteByID_not_idempotent` at a one-row table. -/
theorem C5_deleteByID_not_idempotent_witness :
    (repository.DeleteByID [sampleTask] 1).2 = none
    ∧ (repository.DeleteByID (repository.DeleteByID [sampleTask] 1).1 1).2
        = some (.repositoryError "delete_task" repository.ErrTaskNotFound) :=
  let h := (C5_deleteByID_not_idempotent [sampleTask] 1).2 sampleTask
    (by simp) rfl
  ⟨h.1, h.2.1⟩

/-- C6 counterexample: per the claim a cache client is disabled also when no
endpoints are configured, and constructing a disabled client never surfaces
an error.  The code instead rejects an enabled construction with an empty
endpoint list: no disabled no-op client results from "no endpoints
configured" alone. -/
theorem C6_counterexample_no_endpoints_errors_at_construction :
    cache.NewRedisCache (fun _ => .ok nullShard) [] true
      = .error (.simple "redis URLs cannot be empty when Redis is enabled") := by
  rfl

/-- C6 (amended): a cache client disabled by the explicit off switch is
constructed successfully without contacting any backend (the `connect`
behaviour and the URL list are irrelevant), every mutating operation on a
client whose enabled flag is off returns success, and every read operation
fails with the distinguished "cache disabled" miss; an enabled construction
with no endpoints instead fails fast (see the counterexample). -/
theorem C6_disabled_cache_constructs_and_noops
    (connect : String → Except GoErr cache.ShardBackend) (urls : List String)
    (r : cache.RedisCacheImpl) (task : Task) (ttl : Int) (id : Nat)
    (tasks : List Task) (hr : r.enabled = false) :
    cache.NewRedisCache connect urls false = .ok ⟨[], false⟩
    ∧ cache.SetTask r task ttl = none
    ∧ cache.DeleteTask r id = none
    ∧ cache.SetTaskList r tasks ttl = none
    ∧ cache.InvalidateTaskList r = none
    ∧ cache.GetTask r id = .error (.simple "cache disabled")
    ∧ cache.GetTaskList r = .error (.simple "cache disabled") := by
  refine ⟨rfl, ?_, ?_, ?_, ?_, ?_, ?_⟩ <;>
    simp [cache.SetTask, cache.DeleteTask, cache.SetTaskList,
      cache.InvalidateTaskList, cache.GetTask, cache.GetTaskList, hr]

/-- Witness for `C6_disabled_cache_constructs_and_noops` at the disabled
client `main` builds (`NewRedisCache(nil, "", 0, false)`). -/
theorem C6_disabled_cache_witness :
    cache.NewRedisCache (fun _ => .ok nullShard) [] false = .ok ⟨[], false⟩
    ∧ cache.SetTask ⟨[], false⟩ sampleTask repository.goSecond = none
    ∧ cache.GetTask ⟨[], false⟩ 1 = .error (.simple "cache disabled") :=
  let h := C6_disabled_cache_constructs_and_noops (fun _ => .ok nullShard) []
    ⟨[], false⟩ sampleTask repository.goSecond 1 [] rfl
  ⟨h.1, h.2.1, h.2.2.2.2.2.1⟩

/-- Go's truncated `%` agrees with the natural-number remainder on the
non-negative operands produced by the shard-selection path. -/
theorem goIntMod_ofNat (n len : Nat) :
    cache.goIntMod (Int.ofNat n) (Int.ofNat len) = Int.ofNat (n % len) := by
  unfold cache.goIntMod
  cases n with
  | zero => simp
  | succ m =>
    have hs : Int.sign (Int.ofNat (m + 1)) = 1 := rfl
    have ha : (Int.ofNat (m + 1)).natAbs = m + 1 := rfl
    have hb : (Int.ofNat len).natAbs = len := rfl
    rw [hs, ha, hb, one_mul]

/-- C7: shard selection is the CRC-32 of the key modulo the client count
when at least two clients are configured, constantly 0 for one client,
depends only on the key and the client count (determinism for a fixed
configuration), and is not constant across shard counts: the key `"a"`
selects shard 0 against one client and shard 1 against two. -/
theorem C7_shard_selection (r : cache.RedisCacheImpl) (key : String) :
    (2 ≤ r.clients.length →
      cache.getShardIndex r key
        = cache.goIntMod
            (cache.goIntOfUint32 (cache.ChecksumIEEE (cache.stringBytes key)))
            (Int.ofNat r.clients.length))
    ∧ (r.clients.length = 1 → cache.getShardIndex r key = 0)
    ∧ (∀ r2 : cache.RedisCacheImpl, r2.clients.length = r.clients.length →
        cache.getShardIndex r2 key = cache.getShardIndex r key)
    ∧ (∃ key2 : String, ∃ r1 r2 : cache.RedisCacheImpl,
        r1.clients.length ≠ r2.clients.length
        ∧ cache.getShardIndex r1 key2 ≠ cache.getShardIndex r2 key2) := by
  refine ⟨?_, ?_, ?_, ?_⟩
  · intro h2
    have hne : ¬ r.clients.length = 1 := by omega
    simp [cache.getShardIndex, hne]
  · intro h1
    simp [cache.getShardIndex, h1]
  · intro r2 hlen
    simp [cache.getShardIndex, hlen]
  · refine ⟨"a", ⟨[nullShard], true⟩, ⟨[nullShard, nullShard], true⟩, by decide, ?_⟩
    decide

/-- Witness for `C7_shard_selection`: the two-client configuration computes
`crc32("a") mod 2 = 1`, and a one-client configuration returns 0. -/
theorem C7_shard_selection_witness :
    2 ≤ (cache.RedisCacheImpl.mk [nullShard, nullShard] true).clients.length
    ∧ cache.getShardIndex ⟨[nullShard, nullShard], true⟩ "a"
        = cache.goIntMod
            (cache.goIntOfUint32 (cache.ChecksumIEEE (cache.stringBytes "a")))
            (Int.ofNat 2)
    ∧ cache.getShardIndex ⟨[nullShard], true⟩ "a" = 0 :=
  ⟨by decide,
   (C7_shard_selection ⟨[nullShard, nullShard], true⟩ "a").1 (by decide),
   (C7_shard_selection ⟨[nullShard], true⟩ "a").2.1 (by decide)⟩

/-- C10: for a non-empty client list the shard index is non-negative and
below the client count — the CRC-32 value, a `uint32`, stays non-negative
after Go's value-preserving conversion to a 64-bit `int` — so the indexing
`r.clients[index]` inside `getClient` is in bounds and, when the client is
enabled, `getClient` returns an actual client. -/
theorem C10_shard_index_always_in_bounds (r : cache.RedisCacheImpl)
    (key : String) (h : r.clients ≠ []) :
    0 ≤ cache.getShardIndex r key
    ∧ cache.getShardIndex r key < Int.ofNat r.clients.length
    ∧ (r.enabled = true → (cache.getClient r key).isSome = true) := by
  have hpos : 0 < r.clients.length := List.length_pos.mpr h
  have hbounds : 0 ≤ cache.getShardIndex r key
      ∧ cache.getShardIndex r key < Int.ofNat r.clients.length := by
    by_cases h1 : r.clients.length = 1
    · simp [cache.getShardIndex, h1]
    · have hform : cache.getShardIndex r key
          = Int.ofNat (cache.ChecksumIEEE (cache.stringBytes key) % 2 ^ 32
              % r.clients.length) := by
        simp only [cache.getShardIndex, if_neg h1, cache.goIntOfUint32]
        exact goIntMod_ofNat _ _
      rw [hform]
      constructor
      · exact Int.ofNat_nonneg _
      · exact Int.ofNat_lt.mpr (Nat.mod_lt _ hpos)
  refine ⟨hbounds.1, hbounds.2, ?_⟩
  intro hen
  have hidx : (cache.getShardIndex r key).toNat < r.clients.length := by
    have h2 := hbounds.2
    have h1 := hbounds.1
    rw [Int.ofNat_eq_coe] at h2
    omega
  simp only [cache.getClient, hen]
  have hcond : ¬ (true = false ∨ r.clients.length = 0) := by
    intro hc
    rcases hc with hc | hc
    · exact absurd hc (by simp)
    · omega
  rw [if_neg hcond]
  cases hc : r.clients.get? ((cache.getShardIndex r key).toNat) with
  | none =>
    rw [List.get?_eq_none] at hc
    omega
  | some c => rfl

/-- Witness for `C10_shard_index_always_in_bounds` at a two-client enabled
configuration. -/
theorem C10_shard_index_witness :
    0 ≤ cache.getShardIndex ⟨[nullShard, nullShard], true⟩ "a"
    ∧ cache.getShardIndex ⟨[nullShard, nullShard], true⟩ "a" < Int.ofNat 2
    ∧ (cache.getClient ⟨[nullShard, nullShard], true⟩ "a").isSome = true :=
  let h := C10_shard_index_always_in_bounds ⟨[nullShard, nullShard], true⟩ "a"
    (List.cons_ne_nil _ _)
  ⟨h.1, h.2.1, h.2.2 rfl⟩

/-- C2: the decorator's `Create`, `Update` and `DeleteByID` return exactly
the primary store's result for every task, every id and every behaviour of
the cache client (the decorator `r` carries arbitrary cache-call results):
cache failures never change a repository operation's outcome. -/
theorem C2_write_ops_return_primary_store_result
    (r : repository.cachedTaskRepository) (task : Task) (id : Nat) :
    repository.cachedCreate r task = r.repo.create task
    ∧ repository.cachedUpdate r task = r.repo.update task
    ∧ repository.cachedDeleteByID r id = r.repo.deleteByID id := by
  refine ⟨?_, ?_, ?_⟩
  · cases h : r.repo.create task <;>
      simp [repository.cachedCreate, h]
  · cases h : r.repo.update task <;>
      simp [repository.cachedUpdate, h]
  · cases h : r.repo.deleteByID id <;>
      simp [repository.cachedDeleteByID, h]

/-- C3: `GetByID` returns the cached task without consulting the primary
store when the cache read succeeds, and otherwise returns exactly the
primary store's result (errors propagated unchanged, the post-read cache
population irrelevant to the returned value); the boolean records whether
the store was consulted. -/
theorem C3_getByID_cache_aside (r : repository.cachedTaskRepository)
    (id : Nat) :
    (∀ t, r.cache.getTask id = .ok t →
      repository.cachedGetByID r id = (.ok t, false))
    ∧ (∀ e, r.cache.getTask id = .error e →
      repository.cachedGetByID r id = (r.repo.getByID id, true)) := by
  constructor
  · intro t ht
    simp [repository.cachedGetByID, ht]
  · intro e he
    cases hs : r.repo.getByID id <;>
      simp [repository.cachedGetByID, he, hs]

/-- Witness for `C3_getByID_cache_aside`: a hit against a populated shard
returns the cached task without the store; a miss against the disabled
client returns the store's result. -/
theorem C3_getByID_cache_aside_witness :
    repository.cachedGetByID
        ⟨stubRepo, repository.cacheOpsOf ⟨[hitShard], true⟩,
          repository.goSecond⟩ 1
      = (.ok sampleTask, false)
    ∧ repository.cachedGetByID
        ⟨stubRepo, repository.cacheOpsOf ⟨[], false⟩, repository.goSecond⟩ 1
      = (stubRepo.getByID 1, true) :=
  ⟨(C3_getByID_cache_aside
      ⟨stubRepo, repository.cacheOpsOf ⟨[hitShard], true⟩,
        repository.goSecond⟩ 1).1 sampleTask rfl,
   (C3_getByID_cache_aside
      ⟨stubRepo, repository.cacheOpsOf ⟨[], false⟩, repository.goSecond⟩ 1).2
     (.simple "cache disabled") rfl⟩

/-- C8 counterexample: the list cache is populated with the fixed
`listTTL = 60s` constant; configured with a 30-second entity TTL, the list
TTL is *not* strictly shorter than the entity TTL, contradicting the claim's
"for every configuration of the entity TTL". -/
theorem C8_counterexample_list_ttl_not_always_shorter :
    (repository.cachedList
        ⟨stubRepo, repository.cacheOpsOf ⟨[], false⟩,
          30 * repository.goSecond⟩).2 = some repository.listTTL
    ∧ ¬ repository.listTTL < 30 * repository.goSecond := by
  exact ⟨rfl, by decide⟩

/-- C8 (amended): on a list-cache miss followed by a successful store read,
`List` populates the list cache with the fixed constant `listTTL` of 60
seconds — independent of the configured entity TTL — which is strictly
shorter than the entity TTL exactly when that TTL exceeds 60 seconds. -/
theorem C8_list_populates_with_fixed_sixty_second_ttl
    (r : repository.cachedTaskRepository) (e : GoErr) (tasks : List Task)
    (hmiss : r.cache.getTaskList = .error e) (hstore : r.repo.list = .ok tasks) :
    (repository.cachedList r).2 = some repository.listTTL
    ∧ repository.listTTL = 60 * repository.goSecond
    ∧ (60 * repository.goSecond < r.ttl → repository.listTTL < r.ttl) := by
  refine ⟨?_, rfl, fun h => h⟩
  simp [repository.cachedList, hmiss, hstore]

/-- Witness for `C8_list_populates_with_fixed_sixty_second_ttl` at a
120-second entity TTL over the disabled cache (every list read misses). -/
theorem C8_list_ttl_witness :
    (repository.cachedList
        ⟨stubRepo, repository.cacheOpsOf ⟨[], false⟩,
          120 * repository.goSecond⟩).2 = some repository.listTTL
    ∧ repository.listTTL < 120 * repository.goSecond :=
  let h := C8_list_populates_with_fixed_sixty_second_ttl
    ⟨stubRepo, repository.cacheOpsOf ⟨[], false⟩, 120 * repository.goSecond⟩
    (.simple "cache disabled") [sampleTask] rfl rfl
  ⟨h.1, h.2.2 (by decide)⟩

/-- C9: composed with a cache client constructed disabled, every decorator
operation returns exactly the plain primary-store repository's value and
error for the same arguments: the decorator over a disabled cache is
observationally equivalent to the undecorated repository. -/
theorem C9_decorator_over_disabled_cache_equals_plain_repo
    (connect : String → Except GoErr cache.ShardBackend) (urls : List String)
    (rc : cache.RedisCacheImpl) (repo : repository.TaskRepository) (ttl : Int)
    (h : cache.NewRedisCache connect urls false = .ok rc)
    (task : Task) (id : Nat) :
    repository.cachedCreate ⟨repo, repository.cacheOpsOf rc, ttl⟩ task
      = repo.create task
    ∧ (repository.cachedGetByID ⟨repo, repository.cacheOpsOf rc, ttl⟩ id).1
      = repo.getByID id
    ∧ repository.cachedUpdate ⟨repo, repository.cacheOpsOf rc, ttl⟩ task
      = repo.update task
    ∧ repository.cachedDeleteByID ⟨repo, repository.cacheOpsOf rc, ttl⟩ id
      = repo.deleteByID id
    ∧ (repository.cachedList ⟨repo, repository.cacheOpsOf rc, ttl⟩).1
      = repo.list := by
  have hrc : rc = ⟨[], false⟩ := by
    simp only [cache.NewRedisCache, if_pos rfl] at h
    exact (Except.ok.injEq _ _).mp h.symm
  subst hrc
  refine ⟨?_, ?_, ?_, ?_, ?_⟩
  · cases hc : repo.create task <;>
      simp [repository.cachedCreate, repository.cacheOpsOf, hc]
  · cases hg : repo.getByID id <;>
      simp [repository.cachedGetByID, repository.cacheOpsOf, cache.GetTask, hg]
  · cases hu : repo.update task <;>
      simp [repository.cachedUpdate, repository.cacheOpsOf, hu]
  · cases hd : repo.deleteByID id <;>
      simp [repository.cachedDeleteByID, repository.cacheOpsOf, hd]
  · cases hl : repo.list <;>
      simp [repository.cachedList, repository.cacheOpsOf, cache.GetTaskList, hl]

/-- Witness for `C9_decorator_over_disabled_cache_equals_plain_repo` at the
disabled construction and the stub primary store. -/
theorem C9_decorator_equivalence_witness :
    repository.cachedCreate
        ⟨stubRepo, repository.cacheOpsOf ⟨[], false⟩, repository.goSecond⟩
        sampleTask
      = stubRepo.create sampleTask
    ∧ (repository.cachedList
        ⟨stubRepo, repository.cacheOpsOf ⟨[], false⟩, repository.goSecond⟩).1
      = stubRepo.list :=
  let h := C9_decorator_over_disabled_cache_equals_plain_repo
    (fun _ => .ok nullShard) [] ⟨[], false⟩ stubRepo repository.goSecond rfl
    sampleTask 1
  ⟨h.1, h.2.2.2.2⟩

end ChecklistDB
